import Mathlib

set_option maxRecDepth 4000

/-!
Verification of the billing and ledger engine of the pampunk water-utility
application, embedded from src/index.tsx.  The file models both revisions
present in the source: the current revision (settlement-time penalty in
togglePaid of BillsView, monthly report in handleDownloadReport) and the
earlier revision (cash-book ledger in CashBookView that folds paid bills in
as synthetic inflow transactions).  Monetary values and timestamps are
natural numbers; balances are integers; the empty text field of an input is
modelled as Option.none.
-/

/- ## Generic helpers -/

/-- Lexicographic strict comparison of character lists, modelling the
JavaScript string comparison operator used on period strings of the form
YYYY-MM. -/
def charListLt : List Char → List Char → Bool
  | [], [] => false
  | [], _ :: _ => true
  | _ :: _, [] => false
  | a :: as, b :: bs => if a < b then true else if b < a then false else charListLt as bs

/-- Strict string comparison, the model of the JavaScript comparison
bill.month < currentMonthStr. -/
def strLt (a b : String) : Bool := charListLt a.data b.data

/-- Two-digit zero padding of a month number. -/
def pad2 (n : Nat) : String := if n < 10 then "0" ++ toString n else toString n

/-- Civil year and month of a count of days since 1970-01-01, the standard
era-based conversion used to model Date.toISOString. -/
def civilYearMonth (days : Nat) : Nat × Nat :=
  let z := days + 719468
  let era := z / 146097
  let doe := z % 146097
  let yoe := (doe - doe / 1460 + doe / 36524 - doe / 146096) / 365
  let y := yoe + era * 400
  let doy := doe - (365 * yoe + yoe / 4 - yoe / 100)
  let mp := (5 * doy + 2) / 153
  let m := if mp < 10 then mp + 3 else mp - 9
  (if m ≤ 2 then y + 1 else y, m)

/-- The YYYY-MM calendar period of a millisecond timestamp, the model of
new Date(t).toISOString().slice(0, 7). -/
def periodOf (ms : Nat) : String :=
  let ym := civilYearMonth (ms / 86400000)
  toString ym.1 ++ "-" ++ pad2 ym.2

/-- Stable insertion of an element into a sorted list: the element is
placed before the first strictly greater element, hence after all elements
comparing equal to it. -/
def insertSorted (lt : α → α → Bool) (a : α) : List α → List α
  | [] => [a]
  | b :: bs => if lt a b then a :: b :: bs else b :: insertSorted lt a bs

/-- Stable comparison sort, the model of the JavaScript Array.sort calls of
the source (stable in all modern engines).  The strict comparator lt a b
holds when the comparator of the source returns a negative number. -/
def sortBy (lt : α → α → Bool) (l : List α) : List α :=
  l.foldl (fun acc a => insertSorted lt a acc) []

/- ## Data model (Types and Interfaces of src/index.tsx) -/

/-- Customer category: Umum (standard) or Bisnis (business). -/
inductive CustomerType where
  | Umum
  | Bisnis
deriving DecidableEq

/-- Direction of a cash transaction: inflow models the source tag for
income, outflow the tag for expense. -/
inductive TxType where
  | inflow
  | outflow
deriving DecidableEq

/-- The details record of a Bill. -/
structure BillDetails where
  beban : Nat
  pakai : Nat
  denda : Nat
  tarifPerM3 : Nat
deriving DecidableEq

/-- A Bill record. -/
structure Bill where
  id : String
  customerId : String
  month : String
  prevReading : Nat
  currReading : Nat
  usage : Nat
  amount : Nat
  details : BillDetails
  isPaid : Bool
  dateCreated : Nat
  paidDate : Option Nat
deriving DecidableEq

/-- A Customer record. -/
structure Customer where
  id : String
  name : String
  address : String
  phone : String
  type : CustomerType
  lastMeterReading : Nat
  createdAt : Option Nat
deriving DecidableEq

/-- A cash Transaction record. -/
structure Transaction where
  id : String
  type : TxType
  description : String
  amount : Nat
  date : Nat
  isManual : Bool
  sourceId : Option String
deriving DecidableEq

/- ## Constants and Config -/

def BIAYA_BEBAN : Nat := 7000
def BIAYA_DENDA : Nat := 5000
def TANGGAL_DENDA : Nat := 10
def TARIF_UMUM : Nat := 1500
def TARIF_BISNIS : Nat := 3000

/- ## Tariff table -/

/-- Per-unit rate of a customer category, from the ternary of RecordingView. -/
def tarifFor : CustomerType → Nat
  | .Bisnis => TARIF_BISNIS
  | .Umum => TARIF_UMUM

/- ## Meter Reading to Bill Compiler (RecordingView and handleSave) -/

/-- Validity of the recording form: the new reading must be non-empty and
at least the last recorded reading.  The empty input field is none. -/
def recordingIsValid (prevReading : Nat) (currentReading : Option Nat) : Bool :=
  match currentReading with
  | none => false
  | some r => decide (r ≥ prevReading)

/-- The handleSave operation of RecordingView in the current revision:
refuses an empty or decreasing reading, otherwise produces the new unpaid
Bill and the customer with the advanced last reading.  In this revision the
penalty at recording time is fixed to zero; the penalty is applied only at
settlement. -/
def handleSave (c : Customer) (currentReading : Option Nat) (currentMonth : String)
    (now : Nat) : Option (Bill × Customer) :=
  match currentReading with
  | none => none
  | some r =>
    if r ≥ c.lastMeterReading then
      let usage := if r ≥ c.lastMeterReading then r - c.lastMeterReading else 0
      let tarifPerM3 := tarifFor c.type
      let biayaPakai := usage * tarifPerM3
      let dendaAmount := 0
      let currentBillAmount := BIAYA_BEBAN + biayaPakai + dendaAmount
      some ({ id := ""
              customerId := c.id
              month := currentMonth
              prevReading := c.lastMeterReading
              currReading := r
              usage := usage
              amount := currentBillAmount
              details := { beban := BIAYA_BEBAN, pakai := biayaPakai,
                           denda := dendaAmount, tarifPerM3 := tarifPerM3 }
              isPaid := false
              dateCreated := now
              paidDate := none },
            { c with lastMeterReading := r })
    else none

/- ## Arrears Aggregator (RecordingView) -/

/-- Arrears of a customer: sum of the amounts of the unpaid bills of that
customer in the snapshot, from the unpaidBills and arrearsTotal lines of
RecordingView. -/
def arrearsTotal (bills : List Bill) (customerId : String) : Nat :=
  ((bills.filter (fun b => b.customerId == customerId && !b.isPaid)).map
    (fun b => b.amount)).sum

/-- Spec-worded arrears, for comparison with the code: sum of amount over
the bills of the customer with paid false and creation timestamp strictly
before the cutoff. -/
def arrearsSpec (bills : List Bill) (customerId : String) (cutoff : Nat) : Nat :=
  ((bills.filter (fun b =>
      b.customerId == customerId && !b.isPaid && decide (b.dateCreated < cutoff))).map
    (fun b => b.amount)).sum

/- ## Settlement State Machine (togglePaid of BillsView, current revision) -/

/-- The togglePaid operation of BillsView.  When the bill is currently
unpaid it is marked paid: the penalty is recomputed from the billing month
against the current month and day (past month, or same month after the due
day, incurs the penalty) and the amount is recomputed from the detail
fields.  When the bill is currently paid it is reverted: penalty reset to
zero, amount recomputed without penalty, settlement timestamp cleared. -/
def togglePaid (bill : Bill) (currentMonthStr : String) (todayDay : Nat)
    (now : Nat) : Bill :=
  let isNowPaid := !bill.isPaid
  let dendaAndAmount : Nat × Nat :=
    if isNowPaid then
      let isPastMonth := strLt bill.month currentMonthStr
      let isLateDay := decide (todayDay > TANGGAL_DENDA)
      if isPastMonth || (bill.month == currentMonthStr && isLateDay) then
        (BIAYA_DENDA, bill.details.beban + bill.details.pakai + BIAYA_DENDA)
      else
        (0, bill.details.beban + bill.details.pakai)
    else
      (0, bill.details.beban + bill.details.pakai)
  { bill with
    isPaid := isNowPaid
    paidDate := if isNowPaid then some now else none
    amount := dendaAndAmount.2
    details := { bill.details with denda := dendaAndAmount.1 } }

/-- The stable-state amount invariant of a Bill stated in the spec. -/
def billInvariant (b : Bill) : Prop :=
  b.amount = b.details.beban + b.details.pakai + b.details.denda

/- ## Ledger Aggregator, lifetime scope (App, both revisions) -/

/-- Sum of the amounts of all paid bills, from totalBillIncome of App. -/
def totalBillIncome (bills : List Bill) : Nat :=
  ((bills.filter (fun b => b.isPaid)).map (fun b => b.amount)).sum

/-- Sum of all manual inflow transactions, from totalManualIncome of App. -/
def totalManualIncome (txs : List Transaction) : Nat :=
  ((txs.filter (fun t => t.type == TxType.inflow)).map (fun t => t.amount)).sum

/-- Sum of all manual outflow transactions, from totalManualExpense of App. -/
def totalManualExpense (txs : List Transaction) : Nat :=
  ((txs.filter (fun t => t.type == TxType.outflow)).map (fun t => t.amount)).sum

/-- Lifetime cash balance, from lifetimeBalance of App. -/
def lifetimeBalance (bills : List Bill) (txs : List Transaction) : Int :=
  ((totalBillIncome bills + totalManualIncome txs : Nat) : Int)
    - ((totalManualExpense txs : Nat) : Int)

/- ## Ledger Aggregator, period scope (CashBookView of the earlier revision) -/

/-- The synthetic inflow transactions derived from paid bills, from
paidBillsAsTx of CashBookView: one inflow per paid bill, dated at the
settlement timestamp with the creation timestamp as fallback. -/
def paidBillsAsTx (customers : List Customer) (bills : List Bill) : List Transaction :=
  (bills.filter (fun b => b.isPaid)).map (fun b =>
    { id := b.id
      type := TxType.inflow
      description := "Tagihan Air: " ++
        (match customers.find? (fun c => c.id == b.customerId) with
         | some c => c.name
         | none => "Pelanggan")
      amount := b.amount
      date := b.paidDate.getD b.dateCreated
      isManual := false
      sourceId := some b.id })

/-- All ledger transactions of CashBookView: manual entries merged with the
synthetic paid-bill inflows, sorted by date descending. -/
def allTransactions (customers : List Customer) (bills : List Bill)
    (manual : List Transaction) : List Transaction :=
  sortBy (fun a b => decide (b.date < a.date)) (manual ++ paidBillsAsTx customers bills)

/-- The transactions of the selected calendar period, from
filteredTransactions of CashBookView. -/
def filteredTransactions (customers : List Customer) (bills : List Bill)
    (manual : List Transaction) (selectedMonth : String) : List Transaction :=
  (allTransactions customers bills manual).filter
    (fun t => periodOf t.date == selectedMonth)

/-- Period inflow, from monthlyIncome of CashBookView. -/
def monthlyIncome (customers : List Customer) (bills : List Bill)
    (manual : List Transaction) (selectedMonth : String) : Nat :=
  (((filteredTransactions customers bills manual selectedMonth).filter
      (fun t => t.type == TxType.inflow)).map (fun t => t.amount)).sum

/-- Period outflow, from monthlyExpense of CashBookView. -/
def monthlyExpense (customers : List Customer) (bills : List Bill)
    (manual : List Transaction) (selectedMonth : String) : Nat :=
  (((filteredTransactions customers bills manual selectedMonth).filter
      (fun t => t.type == TxType.outflow)).map (fun t => t.amount)).sum

/-- Period balance, from monthlyBalance of CashBookView. -/
def monthlyBalance (customers : List Customer) (bills : List Bill)
    (manual : List Transaction) (selectedMonth : String) : Int :=
  ((monthlyIncome customers bills manual selectedMonth : Nat) : Int)
    - ((monthlyExpense customers bills manual selectedMonth : Nat) : Int)

/-- Spec-worded period bill inflow, for comparison with the code: the
amounts of the bills that are paid and whose settlement timestamp (with
creation as fallback) falls in the period. -/
def specPeriodBillInflow (bills : List Bill) (m : String) : Nat :=
  ((bills.filter (fun b =>
      b.isPaid && (periodOf (b.paidDate.getD b.dateCreated) == m))).map
    (fun b => b.amount)).sum

/-- Spec-worded period manual inflow, for comparison with the code: the
manual inflow transactions whose own timestamp falls in the period. -/
def specPeriodManualInflow (manual : List Transaction) (m : String) : Nat :=
  ((manual.filter (fun t =>
      t.type == TxType.inflow && (periodOf t.date == m))).map
    (fun t => t.amount)).sum

/- ## Report Exporter (handleDownloadReport of DashboardView, current revision) -/

/-- Bills of the selected report month, filtered by the billing month field,
from billsInMonth of handleDownloadReport. -/
def billsInMonth (bills : List Bill) (reportMonth : String) : List Bill :=
  bills.filter (fun b => b.month == reportMonth)

/-- Manual transactions of the report month, filtered by the period of
their own timestamp, from transactionsInMonth of handleDownloadReport. -/
def transactionsInMonth (txs : List Transaction) (reportMonth : String) : List Transaction :=
  txs.filter (fun t => periodOf t.date == reportMonth)

/-- Paid-bill income of the report month, from waterIncome of
handleDownloadReport: amounts of the paid bills whose billing month is the
report month. -/
def waterIncome (bills : List Bill) (reportMonth : String) : Nat :=
  (((billsInMonth bills reportMonth).filter (fun b => b.isPaid)).map
    (fun b => b.amount)).sum

/-- Manual income of the report month, from manualIncome of
handleDownloadReport. -/
def reportManualIncome (txs : List Transaction) (reportMonth : String) : Nat :=
  (((transactionsInMonth txs reportMonth).filter
      (fun t => t.type == TxType.inflow)).map (fun t => t.amount)).sum

/-- Manual expense of the report month, from totalExpense of
handleDownloadReport. -/
def reportExpense (txs : List Transaction) (reportMonth : String) : Nat :=
  (((transactionsInMonth txs reportMonth).filter
      (fun t => t.type == TxType.outflow)).map (fun t => t.amount)).sum

/-- The sort key of the per-bill report rows: the name of the owning
customer, with the empty string for an unknown customer. -/
def customerSortName (customers : List Customer) (customerId : String) : String :=
  match customers.find? (fun c => c.id == customerId) with
  | some c => c.name
  | none => ""

/-- The bills of the report month sorted by customer name, from
sortedBillsForReport of handleDownloadReport. -/
def sortedBillsForReport (customers : List Customer) (bills : List Bill)
    (reportMonth : String) : List Bill :=
  sortBy (fun a b =>
      strLt (customerSortName customers a.customerId)
            (customerSortName customers b.customerId))
    (billsInMonth bills reportMonth)

/-- A per-bill row of the exported report. -/
structure ReportRow where
  name : String
  prevReading : Nat
  currReading : Nat
  jumlahTagihanMurni : Nat
  denda : Nat
  tunggakan : Nat
  isPaidStatus : Bool
deriving DecidableEq

/-- The per-bill rows of the report, from the forEach of
handleDownloadReport: the arrears column of a row is the own outstanding
amount of that bill (detail fields including penalty) when unpaid and zero
when paid. -/
def reportRows (customers : List Customer) (bills : List Bill)
    (reportMonth : String) : List ReportRow :=
  (sortedBillsForReport customers bills reportMonth).map (fun b =>
    let jumlahTagihanMurni := b.details.beban + b.details.pakai
    let denda := b.details.denda
    { name := (match customers.find? (fun c => c.id == b.customerId) with
               | some c => c.name
               | none => "Unknown")
      prevReading := b.prevReading
      currReading := b.currReading
      jumlahTagihanMurni := jumlahTagihanMurni
      denda := denda
      tunggakan := if !b.isPaid then jumlahTagihanMurni + denda else 0
      isPaidStatus := b.isPaid })

/- ## Manual transaction entry (handleSaveTransaction of CashBookView, current revision) -/

/-- The handleSaveTransaction operation: refuses an empty description or an
empty amount field, otherwise stores the transaction with the parsed amount
and the manual flag set.  The amount field is the state written by the
digits-only input handler, so it is either empty (none) or the parsed
non-negative number (some n), including zero for an all-zeros entry. -/
def handleSaveTransaction (ty : TxType) (desc : String) (amountField : Option Nat)
    (now : Nat) : Option Transaction :=
  if desc = "" then none
  else
    match amountField with
    | none => none
    | some n =>
      some { id := ""
             type := ty
             description := desc
             amount := n
             date := now
             isManual := true
             sourceId := none }

/-- The signed cash value of a transaction, positive for inflow and
negative for outflow. -/
def signedAmount (t : Transaction) : Int :=
  match t.type with
  | .inflow => (t.amount : Int)
  | .outflow => -(t.amount : Int)

/- ## Concrete sample records used in closed instantiations -/

/-- Sample customer for the compiler scenario: standard tariff, last
reading 100. -/
def c1Customer : Customer :=
  { id := "c1", name := "Andi", address := "Dusun A", phone := "",
    type := CustomerType.Umum, lastMeterReading := 100, createdAt := none }

/-- The bill produced from c1Customer at reading 115 in period 2024-02. -/
def c1Bill : Bill :=
  { id := "", customerId := "c1", month := "2024-02", prevReading := 100,
    currReading := 115, usage := 15, amount := 29500,
    details := { beban := 7000, pakai := 22500, denda := 0, tarifPerM3 := 1500 },
    isPaid := false, dateCreated := 5, paidDate := none }

/-- c1Customer after the reading advance to 115. -/
def c1CustomerAfter : Customer :=
  { c1Customer with lastMeterReading := 115 }

/-- Sample unpaid bill of period 2024-01 for the settlement scenario. -/
def c2Bill : Bill :=
  { id := "b2", customerId := "c2", month := "2024-01", prevReading := 100,
    currReading := 115, usage := 15, amount := 29500,
    details := { beban := 7000, pakai := 22500, denda := 0, tarifPerM3 := 1500 },
    isPaid := false, dateCreated := 10, paidDate := none }

/-- Sample customer for the compiler precondition scenario. -/
def c3Customer : Customer :=
  { id := "c3", name := "Budi", address := "Dusun B", phone := "",
    type := CustomerType.Umum, lastMeterReading := 100, createdAt := none }

/-- Sample unpaid bill created at time 100 for the arrears scenario. -/
def c4Bill : Bill :=
  { id := "b4", customerId := "c4", month := "2024-01", prevReading := 0,
    currReading := 15, usage := 15, amount := 29500,
    details := { beban := 7000, pakai := 22500, denda := 0, tarifPerM3 := 1500 },
    isPaid := false, dateCreated := 100, paidDate := none }

/-- Sample bill of billing month 2024-01 settled on 2024-02-01 (timestamp
1706745600000 is 2024-02-01T00:00:00Z; 1704067200000 is 2024-01-01). -/
def c5Bill : Bill :=
  { id := "b5", customerId := "c5", month := "2024-01", prevReading := 100,
    currReading := 115, usage := 15, amount := 29500,
    details := { beban := 7000, pakai := 22500, denda := 0, tarifPerM3 := 1500 },
    isPaid := true, dateCreated := 1704067200000, paidDate := some 1706745600000 }

/-- Sample paid bill carrying a penalty, for the revert scenario. -/
def c6Bill : Bill :=
  { id := "b6", customerId := "c6", month := "2024-01", prevReading := 100,
    currReading := 115, usage := 15, amount := 34500,
    details := { beban := 7000, pakai := 22500, denda := 5000, tarifPerM3 := 1500 },
    isPaid := true, dateCreated := 10, paidDate := some 50 }

/-- Sample paid bill for the idempotence question. -/
def c7PaidBill : Bill :=
  { id := "b7", customerId := "c7", month := "2024-02", prevReading := 100,
    currReading := 115, usage := 15, amount := 29500,
    details := { beban := 7000, pakai := 22500, denda := 0, tarifPerM3 := 1500 },
    isPaid := true, dateCreated := 10, paidDate := some 50 }

/-- Sample unpaid bill for the double-toggle scenario. -/
def c7UnpaidBill : Bill :=
  { id := "b7u", customerId := "c7", month := "2024-02", prevReading := 100,
    currReading := 115, usage := 15, amount := 29500,
    details := { beban := 7000, pakai := 22500, denda := 0, tarifPerM3 := 1500 },
    isPaid := false, dateCreated := 10, paidDate := none }

/-- Sample customer owning the two report bills. -/
def c9Customer : Customer :=
  { id := "A", name := "Andi", address := "Dusun A", phone := "",
    type := CustomerType.Umum, lastMeterReading := 130, createdAt := none }

/-- Unpaid bill of the report month 2024-02. -/
def c9BillA : Bill :=
  { id := "bA", customerId := "A", month := "2024-02", prevReading := 115,
    currReading := 130, usage := 15, amount := 29500,
    details := { beban := 7000, pakai := 22500, denda := 0, tarifPerM3 := 1500 },
    isPaid := false, dateCreated := 20, paidDate := none }

/-- Older unpaid bill of the prior month 2024-01 of the same customer. -/
def c9BillB : Bill :=
  { id := "bB", customerId := "A", month := "2024-01", prevReading := 100,
    currReading := 115, usage := 15, amount := 29500,
    details := { beban := 7000, pakai := 22500, denda := 0, tarifPerM3 := 1500 },
    isPaid := false, dateCreated := 10, paidDate := none }

/- ## Helper lemmas: the strict string order -/

theorem charListLt_irrefl : ∀ x, charListLt x x = false
  | [] => rfl
  | a :: as => by
      simp [charListLt, lt_self_iff_false, charListLt_irrefl as]

theorem charListLt_trans :
    ∀ x y z, charListLt x y = true → charListLt y z = true → charListLt x z = true := by
  intro x
  induction x with
  | nil =>
    intro y z hxy hyz
    cases y with
    | nil => simp [charListLt] at hxy
    | cons b bs =>
      cases z with
      | nil => simp [charListLt] at hyz
      | cons c cs => rfl
  | cons a as ih =>
    intro y z hxy hyz
    cases y with
    | nil => simp [charListLt] at hxy
    | cons b bs =>
      cases z with
      | nil => simp [charListLt] at hyz
      | cons c cs =>
        simp only [charListLt] at hxy hyz ⊢
        by_cases hab : a < b
        · by_cases hbc : b < c
          · simp [lt_trans hab hbc]
          · by_cases hcb : c < b
            · simp [hbc, hcb] at hyz
            · have hbc' : b = c := le_antisymm (le_of_not_lt hcb) (le_of_not_lt hbc)
              subst hbc'
              simp [hab]
        · by_cases hba : b < a
          · simp [hab, hba] at hxy
          · have hab' : a = b := le_antisymm (le_of_not_lt hba) (le_of_not_lt hab)
            subst hab'
            simp only [lt_self_iff_false, if_false, ite_false] at hxy
            by_cases hac : a < c
            · simp [hac]
            · by_cases hca : c < a
              · simp [hac, hca] at hyz
              · have hac' : a = c := le_antisymm (le_of_not_lt hca) (le_of_not_lt hac)
                subst hac'
                simp only [lt_self_iff_false, if_false, ite_false] at hyz ⊢
                exact ih bs cs hxy hyz

theorem strLt_irrefl (s : String) : strLt s s = false :=
  charListLt_irrefl s.data

theorem strLt_trans {a b c : String} (h1 : strLt a b = true) (h2 : strLt b c = true) :
    strLt a c = true :=
  charListLt_trans a.data b.data c.data h1 h2

theorem strLt_asymm {a b : String} (h : strLt a b = true) : strLt b a = false := by
  cases hba : strLt b a with
  | false => rfl
  | true =>
    have hr := strLt_trans h hba
    rw [strLt_irrefl] at hr
    exact absurd hr (by simp)

/- ## Helper lemmas: the stable sort -/

theorem insertSorted_perm (lt : α → α → Bool) (a : α) :
    ∀ l : List α, (insertSorted lt a l).Perm (a :: l)
  | [] => List.Perm.refl _
  | b :: bs => by
      simp only [insertSorted]
      by_cases h : lt a b = true
      · simp [h]
      · rw [if_neg h]
        exact (List.Perm.cons b (insertSorted_perm lt a bs)).trans (List.Perm.swap a b bs)

theorem foldl_insertSorted_perm (lt : α → α → Bool) :
    ∀ (l acc : List α),
      (l.foldl (fun acc a => insertSorted lt a acc) acc).Perm (l ++ acc) := by
  intro l
  induction l with
  | nil => intro acc; simp
  | cons a as ih =>
    intro acc
    simp only [List.foldl_cons]
    refine (ih (insertSorted lt a acc)).trans ?_
    refine (List.Perm.append_left as (insertSorted_perm lt a acc)).trans ?_
    exact List.perm_middle

theorem sortBy_perm (lt : α → α → Bool) (l : List α) : (sortBy lt l).Perm l := by
  have h := foldl_insertSorted_perm lt l []
  simpa [sortBy] using h

theorem insertSorted_pairwise {lt : α → α → Bool}
    (hasym : ∀ x y, lt x y = true → lt y x = false)
    (htrans : ∀ x y z, lt x y = true → lt y z = true → lt x z = true)
    (a : α) :
    ∀ {l : List α}, l.Pairwise (fun u v => lt v u = false) →
      (insertSorted lt a l).Pairwise (fun u v => lt v u = false) := by
  intro l
  induction l with
  | nil => intro _; simp [insertSorted]
  | cons b bs ih =>
    intro h
    rw [List.pairwise_cons] at h
    obtain ⟨hb, hbs⟩ := h
    simp only [insertSorted]
    by_cases hab : lt a b = true
    · rw [if_pos hab]
      refine List.Pairwise.cons ?_ (List.Pairwise.cons hb hbs)
      intro c hc
      rcases List.mem_cons.mp hc with rfl | hc'
      · exact hasym a c hab
      · cases hca : lt c a with
        | false => rfl
        | true =>
          have hcb := htrans c a b hca hab
          rw [hb c hc'] at hcb
          exact absurd hcb (by simp)
    · rw [if_neg hab]
      refine List.Pairwise.cons ?_ (ih hbs)
      intro c hc
      rcases List.mem_cons.mp ((insertSorted_perm lt a bs).mem_iff.mp hc) with rfl | hc'
      · exact Bool.eq_false_iff.mpr (fun hx => hab hx)
      · exact hb c hc'

theorem foldl_insertSorted_pairwise {lt : α → α → Bool}
    (hasym : ∀ x y, lt x y = true → lt y x = false)
    (htrans : ∀ x y z, lt x y = true → lt y z = true → lt x z = true) :
    ∀ (l acc : List α), acc.Pairwise (fun u v => lt v u = false) →
      (l.foldl (fun acc a => insertSorted lt a acc) acc).Pairwise
        (fun u v => lt v u = false) := by
  intro l
  induction l with
  | nil => intro acc h; simpa using h
  | cons a as ih =>
    intro acc h
    simp only [List.foldl_cons]
    exact ih (insertSorted lt a acc) (insertSorted_pairwise hasym htrans a h)

theorem sortBy_pairwise {lt : α → α → Bool}
    (hasym : ∀ x y, lt x y = true → lt y x = false)
    (htrans : ∀ x y z, lt x y = true → lt y z = true → lt x z = true)
    (l : List α) :
    (sortBy lt l).Pairwise (fun u v => lt v u = false) :=
  foldl_insertSorted_pairwise hasym htrans l [] (by simp)

/- ## Helper lemmas: sums -/

theorem sum_map_add_int {β : Type} (f g : β → Int) :
    ∀ l : List β, (l.map (fun x => f x + g x)).sum = (l.map f).sum + (l.map g).sum := by
  intro l
  induction l with
  | nil => simp
  | cons b bs ih =>
    simp only [List.map_cons, List.sum_cons, ih]
    ring

theorem sum_map_ite_of_not_mem {β : Type} [DecidableEq β] (v : Int) :
    ∀ (ks : List β) (m : β), m ∉ ks →
      (ks.map (fun k => if m = k then v else 0)).sum = 0 := by
  intro ks
  induction ks with
  | nil => simp
  | cons k ks ih =>
    intro m hm
    rw [List.mem_cons] at hm
    push_neg at hm
    simp [hm.1, ih m hm.2]

theorem sum_map_ite_of_mem {β : Type} [DecidableEq β] (v : Int) :
    ∀ (ks : List β) (m : β), ks.Nodup → m ∈ ks →
      (ks.map (fun k => if m = k then v else 0)).sum = v := by
  intro ks
  induction ks with
  | nil => intro m _ hm; simp at hm
  | cons k ks ih =>
    intro m hnd hm
    rw [List.nodup_cons] at hnd
    rcases List.mem_cons.mp hm with rfl | hmem
    · simp [sum_map_ite_of_not_mem v ks m hnd.1]
    · have hne : m ≠ k := fun h => hnd.1 (h ▸ hmem)
      simp [hne, ih m hnd.2 hmem]

theorem sum_map_fibers {α β : Type} [DecidableEq β] (key : α → β) [BEq β] [LawfulBEq β]
    (v : α → Int) :
    ∀ (l : List α) (ks : List β), ks.Nodup → (∀ t ∈ l, key t ∈ ks) →
      (ks.map (fun k => ((l.filter (fun t => key t == k)).map v).sum)).sum
        = (l.map v).sum := by
  intro l
  induction l with
  | nil => intro ks _ _; simp
  | cons t l ih =>
    intro ks hnd hcov
    have hcov' : ∀ u ∈ l, key u ∈ ks := fun u hu => hcov u (List.mem_cons_of_mem t hu)
    have hmem : key t ∈ ks := hcov t (List.mem_cons_self t l)
    have hstep : ∀ k ∈ ks,
        (((t :: l).filter (fun u => key u == k)).map v).sum
          = (if key t = k then v t else 0)
            + ((l.filter (fun u => key u == k)).map v).sum := by
      intro k _
      rw [List.filter_cons]
      by_cases hk : key t = k
      · simp [hk]
      · simp [hk]
    rw [List.map_congr_left hstep, sum_map_add_int,
        sum_map_ite_of_mem (v t) ks (key t) hnd hmem, ih ks hnd hcov']
    simp

theorem sum_map_signed (l : List Transaction) :
    (l.map signedAmount).sum
      = (((l.filter (fun t => t.type == TxType.inflow)).map (fun t => t.amount)).sum : Int)
        - (((l.filter (fun t => t.type == TxType.outflow)).map (fun t => t.amount)).sum : Int) := by
  induction l with
  | nil => simp
  | cons t l ih =>
    cases ht : t.type with
    | inflow =>
      simp only [List.filter_cons, ht]
      simp only [signedAmount, ht, List.map_cons, List.sum_cons, ih]
      norm_num
      push_cast
      ring
    | outflow =>
      simp only [List.filter_cons, ht]
      simp only [signedAmount, ht, List.map_cons, List.sum_cons, ih]
      norm_num
      push_cast
      ring

/- ## Helper lemmas: the settlement operation -/

theorem togglePaid_def (bill : Bill) (mo : String) (day now : Nat) :
    togglePaid bill mo day now =
      if bill.isPaid then
        { bill with
          isPaid := false
          paidDate := none
          amount := bill.details.beban + bill.details.pakai
          details := { bill.details with denda := 0 } }
      else if strLt bill.month mo || (bill.month == mo && decide (day > TANGGAL_DENDA)) then
        { bill with
          isPaid := true
          paidDate := some now
          amount := bill.details.beban + bill.details.pakai + BIAYA_DENDA
          details := { bill.details with denda := BIAYA_DENDA } }
      else
        { bill with
          isPaid := true
          paidDate := some now
          amount := bill.details.beban + bill.details.pakai
          details := { bill.details with denda := 0 } } := by
  cases hb : bill.isPaid
  · simp only [togglePaid, hb, Bool.not_false, if_true, Bool.false_eq_true, if_false]
    split
    · rfl
    · rfl
  · simp only [togglePaid, hb, Bool.not_true, Bool.false_eq_true, if_false, if_true]

theorem togglePaid_isPaid (bill : Bill) (mo : String) (day now : Nat) :
    (togglePaid bill mo day now).isPaid = !bill.isPaid := by
  rw [togglePaid_def]
  cases hb : bill.isPaid
  · simp only [Bool.false_eq_true, if_false]
    split <;> rfl
  · simp

/- ## C1 -/

/-- C1: at every stable state of a Bill, at creation by the compiler and
after either settlement transition, the amount equals
details.beban + details.pakai + details.denda. -/
theorem C1_amount_invariant :
    (∀ (c : Customer) (r : Nat) (mo : String) (now : Nat) (b : Bill) (c2 : Customer),
        handleSave c (some r) mo now = some (b, c2) → billInvariant b) ∧
    (∀ (b : Bill) (mo : String) (day now : Nat),
        billInvariant (togglePaid b mo day now)) := by
  constructor
  · intro c r mo now b c2 h
    simp only [handleSave] at h
    split at h
    · simp only [Option.some.injEq, Prod.mk.injEq] at h
      obtain ⟨hb, _⟩ := h
      subst hb
      simp [billInvariant]
    · exact absurd h (by simp)
  · intro b mo day now
    rw [togglePaid_def]
    cases hb : b.isPaid
    · simp only [Bool.false_eq_true, if_false]
      split
      · simp [billInvariant]
      · simp [billInvariant]
    · simp [billInvariant]

/-- Witness for C1 at the concrete scenario of the spec: reading 115 over
last reading 100 at standard tariff, then a settlement toggle. -/
theorem C1_witness :
    billInvariant c1Bill ∧ billInvariant (togglePaid c1Bill "2024-02" 11 99) :=
  ⟨C1_amount_invariant.1 c1Customer 115 "2024-02" 5 c1Bill c1CustomerAfter rfl,
   C1_amount_invariant.2 c1Bill "2024-02" 11 99⟩

/- ## C2 -/

/-- C2: marking an unpaid Bill paid recomputes the penalty by the
settlement-time policy (past billing month, or same month after the due
day, incurs the fixed penalty, otherwise zero), recomputes the amount as
base fee plus usage fee plus the new penalty, sets the paid flag and the
settlement timestamp. -/
theorem C2_markPaid (b : Bill) (curMonth : String) (day now : Nat)
    (h : b.isPaid = false) :
    (togglePaid b curMonth day now).details.denda
        = (if strLt b.month curMonth = true ∨ (b.month = curMonth ∧ day > TANGGAL_DENDA)
           then BIAYA_DENDA else 0) ∧
    (togglePaid b curMonth day now).amount
        = b.details.beban + b.details.pakai + (togglePaid b curMonth day now).details.denda ∧
    (togglePaid b curMonth day now).isPaid = true ∧
    (togglePaid b curMonth day now).paidDate = some now := by
  rw [togglePaid_def]
  simp only [h, Bool.false_eq_true, if_false]
  by_cases hcond : strLt b.month curMonth = true ∨ (b.month = curMonth ∧ day > TANGGAL_DENDA)
  · have hbool : (strLt b.month curMonth || (b.month == curMonth && decide (day > TANGGAL_DENDA))) = true := by
      simp only [Bool.or_eq_true, Bool.and_eq_true, beq_iff_eq, decide_eq_true_eq]
      exact hcond
    simp [hbool, hcond]
  · have hbool : (strLt b.month curMonth || (b.month == curMonth && decide (day > TANGGAL_DENDA))) = false := by
      simp only [Bool.or_eq_true, Bool.and_eq_true, beq_iff_eq, decide_eq_true_eq,
                 Bool.not_eq_true] at hcond ⊢
      rw [Bool.eq_false_iff]
      intro hx
      rw [Bool.or_eq_true, Bool.and_eq_true, beq_iff_eq, decide_eq_true_eq] at hx
      exact hcond hx
    simp [hbool, hcond]

/-- Witness for C2: the unpaid bill of period 2024-01 settled in period
2024-02 on day 11. -/
theorem C2_witness :
    (togglePaid c2Bill "2024-02" 11 500).details.denda
        = (if strLt c2Bill.month "2024-02" = true ∨ (c2Bill.month = "2024-02" ∧ 11 > TANGGAL_DENDA)
           then BIAYA_DENDA else 0) ∧
    (togglePaid c2Bill "2024-02" 11 500).amount
        = c2Bill.details.beban + c2Bill.details.pakai
          + (togglePaid c2Bill "2024-02" 11 500).details.denda ∧
    (togglePaid c2Bill "2024-02" 11 500).isPaid = true ∧
    (togglePaid c2Bill "2024-02" 11 500).paidDate = some 500 :=
  C2_markPaid c2Bill "2024-02" 11 500 rfl

/- ## C3 -/

/-- C3: the compiler accepts a reading at least the last reading, creating
the unpaid bill with the exact difference as usage, usage times tariff as
usage fee, the readings recorded, and the last reading advanced; a lower
reading is refused with no bill and no advance. -/
theorem C3_compiler (c : Customer) (r : Nat) (mo : String) (now : Nat) :
    (r ≥ c.lastMeterReading →
      ((handleSave c (some r) mo now).map (fun p => p.1.usage)
          = some (r - c.lastMeterReading) ∧
       (handleSave c (some r) mo now).map (fun p => p.1.details.pakai)
          = some ((r - c.lastMeterReading) * tarifFor c.type) ∧
       (handleSave c (some r) mo now).map (fun p => p.1.amount)
          = some (BIAYA_BEBAN + (r - c.lastMeterReading) * tarifFor c.type) ∧
       (handleSave c (some r) mo now).map (fun p => p.1.isPaid) = some false ∧
       (handleSave c (some r) mo now).map (fun p => p.1.prevReading)
          = some c.lastMeterReading ∧
       (handleSave c (some r) mo now).map (fun p => p.1.currReading) = some r ∧
       (handleSave c (some r) mo now).map (fun p => p.2.lastMeterReading) = some r)) ∧
    (r < c.lastMeterReading → handleSave c (some r) mo now = none) := by
  constructor
  · intro h
    simp [handleSave, h]
  · intro h
    simp [handleSave, Nat.not_le.mpr h]

/-- Witness for C3: reading 115 accepted over last reading 100, reading 50
refused. -/
theorem C3_witness :
    ((handleSave c3Customer (some 115) "2024-02" 7).map (fun p => p.1.usage)
        = some (115 - c3Customer.lastMeterReading) ∧
     (handleSave c3Customer (some 115) "2024-02" 7).map (fun p => p.1.details.pakai)
        = some ((115 - c3Customer.lastMeterReading) * tarifFor c3Customer.type) ∧
     (handleSave c3Customer (some 115) "2024-02" 7).map (fun p => p.1.amount)
        = some (BIAYA_BEBAN + (115 - c3Customer.lastMeterReading) * tarifFor c3Customer.type) ∧
     (handleSave c3Customer (some 115) "2024-02" 7).map (fun p => p.1.isPaid) = some false ∧
     (handleSave c3Customer (some 115) "2024-02" 7).map (fun p => p.1.prevReading)
        = some c3Customer.lastMeterReading ∧
     (handleSave c3Customer (some 115) "2024-02" 7).map (fun p => p.1.currReading) = some 115 ∧
     (handleSave c3Customer (some 115) "2024-02" 7).map (fun p => p.2.lastMeterReading)
        = some 115) ∧
    handleSave c3Customer (some 50) "2024-02" 7 = none :=
  ⟨(C3_compiler c3Customer 115 "2024-02" 7).1 (by decide),
   (C3_compiler c3Customer 50 "2024-02" 7).2 (by decide)⟩

/- ## C4 -/

/-- C4: under the snapshot condition that every bill present was created
strictly before the cutoff, the arrears of a customer computed by the code
equal the spec sum over exactly the unpaid bills of that customer created
before the cutoff; with no unpaid bill of the customer the arrears are
exactly zero. -/
theorem C4_arrears (bills : List Bill) (cid : String) (cutoff : Nat)
    (h : ∀ b ∈ bills, b.dateCreated < cutoff) :
    arrearsTotal bills cid = arrearsSpec bills cid cutoff ∧
    ((∀ b ∈ bills, b.customerId = cid → b.isPaid = true) →
      arrearsTotal bills cid = 0) := by
  constructor
  · simp only [arrearsTotal, arrearsSpec]
    have hfc : bills.filter (fun b => b.customerId == cid && !b.isPaid)
        = bills.filter (fun b =>
            b.customerId == cid && !b.isPaid && decide (b.dateCreated < cutoff)) := by
      apply List.filter_congr
      intro b hb
      simp [h b hb]
    rw [hfc]
  · intro hall
    simp only [arrearsTotal]
    have hnil : bills.filter (fun b => b.customerId == cid && !b.isPaid) = [] := by
      rw [List.filter_eq_nil_iff]
      intro b hb hcontra
      rw [Bool.and_eq_true, beq_iff_eq] at hcontra
      have hp := hall b hb hcontra.1
      rw [hp] at hcontra
      simp at hcontra
    rw [hnil]
    rfl

/-- Witness for C4 at a one-bill snapshot created at time 100 with cutoff
200. -/
theorem C4_witness :
    arrearsTotal [c4Bill] "c4" = arrearsSpec [c4Bill] "c4" 200 ∧
    ((∀ b ∈ [c4Bill], b.customerId = "c4" → b.isPaid = true) →
      arrearsTotal [c4Bill] "c4" = 0) :=
  C4_arrears [c4Bill] "c4" 200 (by decide)

theorem togglePaid_revert (b : Bill) (mo : String) (day now : Nat)
    (h : b.isPaid = true) :
    (togglePaid b mo day now).details.denda = 0 ∧
    (togglePaid b mo day now).amount = b.details.beban + b.details.pakai ∧
    (togglePaid b mo day now).isPaid = false ∧
    (togglePaid b mo day now).paidDate = none := by
  rw [togglePaid_def]
  simp [h]

/- ## C6 -/

/-- C6: reverting a paid Bill to unpaid resets the penalty to zero,
recomputes the amount as base fee plus usage fee, clears the paid flag and
the settlement timestamp, for any penalty the bill carried. -/
theorem C6_revert (b : Bill) (mo : String) (day now : Nat) (h : b.isPaid = true) :
    (togglePaid b mo day now).details.denda = 0 ∧
    (togglePaid b mo day now).amount = b.details.beban + b.details.pakai ∧
    (togglePaid b mo day now).isPaid = false ∧
    (togglePaid b mo day now).paidDate = none :=
  togglePaid_revert b mo day now h

/-- Witness for C6: the paid bill carrying penalty 5000 reverted. -/
theorem C6_witness :
    (togglePaid c6Bill "2024-02" 5 0).details.denda = 0 ∧
    (togglePaid c6Bill "2024-02" 5 0).amount = c6Bill.details.beban + c6Bill.details.pakai ∧
    (togglePaid c6Bill "2024-02" 5 0).isPaid = false ∧
    (togglePaid c6Bill "2024-02" 5 0).paidDate = none :=
  C6_revert c6Bill "2024-02" 5 0 rfl

/- ## C7 -/

/-- C7 counterexample: the settlement operation of the code is a single
toggle, so invoked on a bill already in the requested state it flips the
bill instead of leaving it unchanged: on the already paid sample it clears
the paid flag, on the already unpaid sample it sets it. -/
theorem C7_counterexample :
    c7PaidBill.isPaid = true ∧
    (togglePaid c7PaidBill "2024-02" 5 777).isPaid = false ∧
    c7UnpaidBill.isPaid = false ∧
    (togglePaid c7UnpaidBill "2024-02" 5 777).isPaid = true := by decide

/-- C7 amended: the settlement operation is a strict toggle, never a no-op:
it always flips the paid flag, applying it twice restores the flag, and a
double toggle of an unpaid bill returns it to the unpaid state with zero
penalty, amount equal to base fee plus usage fee, and no settlement
timestamp. -/
theorem C7_toggle (b : Bill) (mo mo2 : String) (day now day2 now2 : Nat) :
    (togglePaid b mo day now).isPaid = !b.isPaid ∧
    (togglePaid (togglePaid b mo day now) mo2 day2 now2).isPaid = b.isPaid ∧
    (b.isPaid = false →
      (togglePaid (togglePaid b mo day now) mo2 day2 now2).details.denda = 0 ∧
      (togglePaid (togglePaid b mo day now) mo2 day2 now2).amount
          = b.details.beban + b.details.pakai ∧
      (togglePaid (togglePaid b mo day now) mo2 day2 now2).paidDate = none ∧
      (togglePaid (togglePaid b mo day now) mo2 day2 now2).isPaid = false) := by
  refine ⟨togglePaid_isPaid b mo day now, ?_, ?_⟩
  · rw [togglePaid_isPaid, togglePaid_isPaid, Bool.not_not]
  · intro h
    have h1 : (togglePaid b mo day now).isPaid = true := by
      rw [togglePaid_isPaid, h]; rfl
    have h2 := togglePaid_revert (togglePaid b mo day now) mo2 day2 now2 h1
    have hbeban : (togglePaid b mo day now).details.beban = b.details.beban := by
      rw [togglePaid_def]
      cases hb : b.isPaid
      · simp only [Bool.false_eq_true, if_false]
        split <;> rfl
      · simp
    have hpakai : (togglePaid b mo day now).details.pakai = b.details.pakai := by
      rw [togglePaid_def]
      cases hb : b.isPaid
      · simp only [Bool.false_eq_true, if_false]
        split <;> rfl
      · simp
    exact ⟨h2.1, by rw [h2.2.1, hbeban, hpakai], h2.2.2.2, h2.2.2.1⟩

/-- Witness for C7: the unpaid sample bill toggled twice, with both
toggle facts and the double-toggle restoration evaluated. -/
theorem C7_witness :
    (togglePaid c7UnpaidBill "2024-02" 11 50).isPaid = !c7UnpaidBill.isPaid ∧
    (togglePaid (togglePaid c7UnpaidBill "2024-02" 11 50) "2024-03" 5 60).isPaid
        = c7UnpaidBill.isPaid ∧
    (togglePaid (togglePaid c7UnpaidBill "2024-02" 11 50) "2024-03" 5 60).details.denda = 0 ∧
    (togglePaid (togglePaid c7UnpaidBill "2024-02" 11 50) "2024-03" 5 60).amount
        = c7UnpaidBill.details.beban + c7UnpaidBill.details.pakai ∧
    (togglePaid (togglePaid c7UnpaidBill "2024-02" 11 50) "2024-03" 5 60).paidDate = none :=
  ⟨(C7_toggle c7UnpaidBill "2024-02" "2024-03" 11 50 5 60).1,
   (C7_toggle c7UnpaidBill "2024-02" "2024-03" 11 50 5 60).2.1,
   ((C7_toggle c7UnpaidBill "2024-02" "2024-03" 11 50 5 60).2.2 rfl).1,
   ((C7_toggle c7UnpaidBill "2024-02" "2024-03" 11 50 5 60).2.2 rfl).2.1,
   ((C7_toggle c7UnpaidBill "2024-02" "2024-03" 11 50 5 60).2.2 rfl).2.2.1⟩

/- ## Helper lemmas: the period ledger -/

theorem paidBillsAsTx_filter_sum (cs : List Customer) (m : String) :
    ∀ bills : List Bill,
      (((paidBillsAsTx cs bills).filter
          (fun t => t.type == TxType.inflow && (periodOf t.date == m))).map
        (fun t => t.amount)).sum = specPeriodBillInflow bills m := by
  intro bills
  induction bills with
  | nil => rfl
  | cons b bs ih =>
    simp only [paidBillsAsTx, specPeriodBillInflow, List.filter_cons] at ih ⊢
    cases hp : b.isPaid
    · simp only [Bool.false_eq_true, if_false, Bool.false_and]
      exact ih
    · simp only [if_true, List.map_cons, List.filter_cons]
      cases hm : (periodOf (b.paidDate.getD b.dateCreated) == m)
      · simpa [hm] using ih
      · simpa [hm] using ih

/- ## C5 -/

/-- C5 counterexample: the downloadable monthly report of the current
revision scopes bills by their billing month, not by the period of their
settlement timestamp: the sample bill of billing month 2024-01 paid on
2024-02-01 contributes nothing to the report income of 2024-02 and
contributes its full amount to the report income of 2024-01. -/
theorem C5_counterexample :
    periodOf 1706745600000 = "2024-02" ∧
    c5Bill.month = "2024-01" ∧
    c5Bill.isPaid = true ∧
    c5Bill.paidDate = some 1706745600000 ∧
    waterIncome [c5Bill] "2024-02" = 0 ∧
    waterIncome [c5Bill] "2024-01" = 29500 := by decide

/-- C5 amended: the period ledger of the earlier-revision cash book does
count a paid bill as inflow in the calendar period of its settlement
timestamp (with the creation timestamp as fallback) and filters manual
transactions by the period of their own timestamp: its period inflow is
exactly the spec-worded manual inflow of the period plus the spec-worded
settlement-period bill inflow.  The current-revision report instead scopes
bills by billing month, as the counterexample shows. -/
theorem C5_period_ledger (cs : List Customer) (bills : List Bill)
    (manual : List Transaction) (m : String) :
    monthlyIncome cs bills manual m
      = specPeriodManualInflow manual m + specPeriodBillInflow bills m := by
  have hperm : (filteredTransactions cs bills manual m).Perm
      ((manual ++ paidBillsAsTx cs bills).filter (fun t => periodOf t.date == m)) := by
    simp only [filteredTransactions, allTransactions]
    exact List.Perm.filter _ (sortBy_perm _ _)
  have h1 : monthlyIncome cs bills manual m
      = ((((manual ++ paidBillsAsTx cs bills).filter (fun t => periodOf t.date == m)).filter
            (fun t => t.type == TxType.inflow)).map (fun t => t.amount)).sum := by
    simp only [monthlyIncome]
    exact List.Perm.sum_eq (List.Perm.map _ (List.Perm.filter _ hperm))
  rw [h1, List.filter_filter, List.filter_append, List.map_append, List.sum_append]
  congr 1
  exact paidBillsAsTx_filter_sum cs m bills

/- ## C8 -/

/-- C8: the lifetime ledger balance, the sum of paid-bill amounts plus
manual inflows minus manual outflows, equals the sum of the per-period
balances taken over the deduplicated periods of all ledger transactions,
manual entries and settled bills alike. -/
theorem C8_lifetime (cs : List Customer) (bills : List Bill)
    (manual : List Transaction) :
    lifetimeBalance bills manual
      = (((allTransactions cs bills manual).map (fun t => periodOf t.date)).dedup.map
          (fun m => monthlyBalance cs bills manual m)).sum := by
  have h1 : ∀ m ∈ ((allTransactions cs bills manual).map (fun t => periodOf t.date)).dedup,
      monthlyBalance cs bills manual m
        = (((allTransactions cs bills manual).filter
              (fun t => periodOf t.date == m)).map signedAmount).sum := by
    intro m _
    simp only [monthlyBalance, monthlyIncome, monthlyExpense, filteredTransactions]
    rw [sum_map_signed, Nat.cast_list_sum, Nat.cast_list_sum, List.map_map, List.map_map]
    rfl
  have hcov : ∀ t ∈ allTransactions cs bills manual,
      periodOf t.date
        ∈ ((allTransactions cs bills manual).map (fun t => periodOf t.date)).dedup := by
    intro t ht
    rw [List.mem_dedup]
    exact List.mem_map_of_mem _ ht
  have hf1 := sum_map_fibers (fun t : Transaction => periodOf t.date) signedAmount
    (allTransactions cs bills manual)
  have hf2 := hf1 (((allTransactions cs bills manual).map (fun t => periodOf t.date)).dedup)
  have hf3 := hf2 (List.nodup_dedup _)
  have hfib := hf3 hcov
  rw [List.map_congr_left h1, hfib]
  have h2 : ((allTransactions cs bills manual).map signedAmount).sum
      = ((manual ++ paidBillsAsTx cs bills).map signedAmount).sum := by
    simp only [allTransactions]
    exact List.Perm.sum_eq (List.Perm.map _ (sortBy_perm _ _))
  rw [h2, List.map_append, List.sum_append, sum_map_signed]
  have hcast : ∀ {γ : Type} (f : γ → Nat) (l : List γ),
      (l.map (fun x => ((f x : Nat) : Int))).sum = ((l.map f).sum : Int) := by
    intro γ f l
    rw [Nat.cast_list_sum, List.map_map]
    rfl
  have h3 : ((paidBillsAsTx cs bills).map signedAmount).sum
      = ((bills.filter (fun b => b.isPaid)).map
          (fun b => ((b.amount : Nat) : Int))).sum := by
    simp only [paidBillsAsTx, List.map_map]
    rfl
  rw [h3, hcast (fun t : Transaction => t.amount),
      hcast (fun t : Transaction => t.amount), hcast (fun b : Bill => b.amount)]
  simp only [lifetimeBalance, totalBillIncome, totalManualIncome, totalManualExpense]
  push_cast
  ring

/- ## C9 -/

/-- C9 counterexample: the arrears column of a report row is the own
outstanding amount of that bill, not the total arrears of the customer: the
sample customer has two unpaid bills of 29500 each, total arrears 59000,
yet the single row of the 2024-02 report carries 29500 in the arrears
column. -/
theorem C9_counterexample :
    (reportRows [c9Customer] [c9BillA, c9BillB] "2024-02").map (fun r => r.tunggakan)
        = [29500] ∧
    arrearsTotal [c9BillA, c9BillB] "A" = 59000 := by decide

/-- C9 amended: each per-bill report row carries in the arrears column the
own outstanding amount of that bill, its base fee plus usage fee plus
penalty when unpaid and zero when paid, not the customer-wide arrears; and
the rows are sorted by customer name. -/
theorem C9_report (cs : List Customer) (bills : List Bill) (m : String) :
    (∀ r ∈ reportRows cs bills m,
        r.tunggakan = if r.isPaidStatus then 0 else r.jumlahTagihanMurni + r.denda) ∧
    (sortedBillsForReport cs bills m).Pairwise
      (fun a b => strLt (customerSortName cs b.customerId)
                        (customerSortName cs a.customerId) = false) := by
  constructor
  · intro r hr
    simp only [reportRows, List.mem_map] at hr
    obtain ⟨b, _, rfl⟩ := hr
    cases hb : b.isPaid <;> simp [hb]
  · simp only [sortedBillsForReport]
    refine sortBy_pairwise ?_ ?_ (billsInMonth bills m)
    · intro x y hxy
      exact strLt_asymm hxy
    · intro x y z hxy hyz
      exact strLt_trans hxy hyz

/-- Witness for C9 at the concrete report: the single 2024-02 row of the
sample data satisfies the row property, and the sorted bill list is
pairwise ordered by customer name. -/
theorem C9_witness :
    (({ name := "Andi", prevReading := 115, currReading := 130,
        jumlahTagihanMurni := 29500, denda := 0, tunggakan := 29500,
        isPaidStatus := false } : ReportRow).tunggakan
      = if ({ name := "Andi", prevReading := 115, currReading := 130,
              jumlahTagihanMurni := 29500, denda := 0, tunggakan := 29500,
              isPaidStatus := false } : ReportRow).isPaidStatus then 0
        else ({ name := "Andi", prevReading := 115, currReading := 130,
                jumlahTagihanMurni := 29500, denda := 0, tunggakan := 29500,
                isPaidStatus := false } : ReportRow).jumlahTagihanMurni
             + ({ name := "Andi", prevReading := 115, currReading := 130,
                  jumlahTagihanMurni := 29500, denda := 0, tunggakan := 29500,
                  isPaidStatus := false } : ReportRow).denda) ∧
    (sortedBillsForReport [c9Customer] [c9BillA, c9BillB] "2024-02").Pairwise
      (fun a b => strLt (customerSortName [c9Customer] b.customerId)
                        (customerSortName [c9Customer] a.customerId) = false) :=
  ⟨(C9_report [c9Customer] [c9BillA, c9BillB] "2024-02").1 _ (by decide),
   (C9_report [c9Customer] [c9BillA, c9BillB] "2024-02").2⟩

/- ## C10 -/

/-- C10 counterexample: the add-transaction operation does not refuse an
entry recording amount zero: a digits-only entry parsing to zero passes the
guard, which only rejects the empty field, and is stored with amount 0. -/
theorem C10_counterexample :
    handleSaveTransaction TxType.inflow "Subsidi" (some 0) 1000
      = some { id := "", type := TxType.inflow, description := "Subsidi", amount := 0,
               date := 1000, isManual := true, sourceId := none } := by decide

/-- C10 amended: every stored manual Transaction records the parsed
non-negative entry amount with the manual flag set; the operation refuses
an empty description and an empty amount field, but a zero amount is
accepted and stored as zero. -/
theorem C10_transaction (ty : TxType) (desc : String) (n now : Nat) (h : desc ≠ "") :
    handleSaveTransaction ty desc (some n) now
      = some { id := "", type := ty, description := desc, amount := n,
               date := now, isManual := true, sourceId := none } ∧
    handleSaveTransaction ty desc none now = none ∧
    handleSaveTransaction ty "" (some n) now = none := by
  refine ⟨?_, ?_, ?_⟩
  · simp [handleSaveTransaction, h]
  · simp [handleSaveTransaction, h]
  · simp [handleSaveTransaction]

/-- Witness for C10: a non-empty entry stored, the empty amount and the
empty description refused. -/
theorem C10_witness :
    handleSaveTransaction TxType.inflow "Hibah" (some 50000) 123
      = some { id := "", type := TxType.inflow, description := "Hibah", amount := 50000,
               date := 123, isManual := true, sourceId := none } ∧
    handleSaveTransaction TxType.inflow "Hibah" none 123 = none ∧
    handleSaveTransaction TxType.inflow "" (some 50000) 123 = none :=
  C10_transaction TxType.inflow "Hibah" 50000 123 (by decide)
